import Mathlib

/-!
Verification of the safety-gated operation pipeline of the MTK servicing
tool (files `mtk_safety.py`, `mtk_device_manager.py`, `mtk_tool_main.py`).

The Python code is shallowly embedded: every subprocess invocation
(`adb` / `fastboot`) and every filesystem probe is a query to an explicit
environment record, and each embedded operation additionally returns the
list of device commands it issued, so that "no command was sent before
the check failed" becomes a statement about that trace.  Python dicts
that carry results are embedded as a single record (`RDict`) of optional
fields, one field per dict key that occurs in the source; a field being
`none` models the key being absent from the dict.
-/

set_option autoImplicit false

namespace MTK

/-- Device-state enum of `mtk_device_manager.DeviceState`. -/
inductive DeviceState where
  | UNKNOWN
  | NORMAL
  | META
  | FASTBOOT
  | RECOVERY
deriving DecidableEq, Repr

/-- The `device_info` dict: the four keys the pipeline reads, each possibly
absent (`dict.get` returning `None`). -/
structure DeviceInfo where
  chipset : Option String := none
  serial : Option String := none
  model : Option String := none
  expected_state : Option String := none
deriving DecidableEq, Repr

/-- Result dict of a single partition backup / restore step
(`_backup_partition` / `_restore_partition`). -/
structure PartResult where
  success : Bool
  error : Option String := none
  path : Option String := none
deriving DecidableEq, Repr

/-- Result dict of `MTKDeviceManager._execute_command`. -/
structure CmdResult where
  success : Bool
  stdout : Option String := none
  stderr : Option String := none
  message : Option String := none
deriving DecidableEq, Repr

/-- A result dict of the pipeline.  Each field is one dict key occurring in
the source; `none` models an absent key.  `detailsStr` holds the
string-valued `details` key of `verify_device` failures, `details` the
partition-result-valued `details` key of backup/restore failures. -/
structure RDict where
  status : Option String := none
  message : Option String := none
  safe : Option Bool := none
  error : Option String := none
  required : Option String := none
  current : Option String := none
  details : Option PartResult := none
  detailsStr : Option String := none
  results : Option (List (String × PartResult)) := none
  recovery_possible : Option Bool := none
  safe_to_continue : Option Bool := none
  verified : Option Bool := none
  device_state : Option String := none
  backup_path : Option String := none
  success : Option Bool := none
  stdout : Option String := none
  stderr : Option String := none
  connected : Option Bool := none
  device_info : Option DeviceInfo := none
deriving DecidableEq, Repr

/-- Device commands issued through the bridge tools.  `ddDump p` is the
on-device `dd` that dumps partition `p` to the temp file, `pull`/`push`
transfer the image, `ddWrite p` writes the temp file onto partition `p`,
`rmTemp` deletes the device-side temp file, and `bridge s` is a command
string run through `MTKDeviceManager._execute_command`. -/
inductive Cmd where
  | ddDump (p : String)
  | pull (p : String)
  | push (p : String)
  | ddWrite (p : String)
  | rmTemp
  | bridge (s : String)
deriving DecidableEq, Repr

/-- `MTKSafetySystem.critical_partitions`. -/
def critical_partitions : List String :=
  ["nvram", "boot", "persist", "security", "userdata", "system"]

/-- `MTKSafetySystem.backup_root`. -/
def backup_root : String := "./MTK_TOOL/BACKUPS"

/-- `os.path.join` for the relative components used by the source. -/
def joinPath (a b : String) : String := a ++ "/" ++ b

/-! ### Python string / number helpers

`_convert_to_mb` calls Python's `float()` on the size prefix and `int()`
on the scaled value.  The parser below covers the decimal forms that can
occur in `df` output (optional sign, digits, optional single dot); any
other shape is a parse failure, which the source converts to `0` via its
`except` clause.  A parsed value is kept as the exact decimal
`num / 10 ^ scale`; `int()` on the scaled value is then truncation toward
zero of that exact ratio (for these decimal magnitudes the double
computation of the source rounds to the same integer). -/

/-- Value of a digit list read in base 10. -/
def natOfDigits (l : List Char) : Nat :=
  l.foldl (fun a c => a * 10 + (c.toNat - 48)) 0

/-- Split a character list at the first dot. -/
def splitDot : List Char → List Char × Option (List Char)
  | [] => ([], none)
  | c :: t =>
    if c = '.' then ([], some t)
    else
      let (i, f) := splitDot t
      (c :: i, f)

/-- An exact decimal number `num / 10 ^ scale`. -/
structure Dec where
  num : Int
  scale : Nat
deriving DecidableEq, Repr

/-- Python `float()` on the decimal strings relevant here, as an exact
decimal; `none` models the `ValueError` path. -/
def parseFloat (s : String) : Option Dec :=
  let (neg, cs) :=
    match s.toList with
    | '-' :: t => (true, t)
    | '+' :: t => (false, t)
    | cs => (false, cs)
  let (ip, fp) := splitDot cs
  if !(ip.all Char.isDigit) then none
  else
    match fp with
    | none =>
      if ip.isEmpty then none
      else
        let n : Int := natOfDigits ip
        some ⟨if neg then -n else n, 0⟩
    | some fpart =>
      if !(fpart.all Char.isDigit) then none
      else if ip.isEmpty && fpart.isEmpty then none
      else
        let n : Int := natOfDigits ip * 10 ^ fpart.length + natOfDigits fpart
        some ⟨if neg then -n else n, fpart.length⟩

/-- Python `int()` applied to the exact value `n / m`: truncation toward
zero (`Int.tdiv`). -/
def pyTrunc (n : Int) (m : Nat) : Int := n.tdiv m

/-- `MTKSafetySystem._convert_to_mb`: `size = float(size_str[:-1])`,
`unit = size_str[-1].upper()`, scale by the unit (`G`: ×1024, `M`: ×1,
`K`: ÷1024), any exception and any other unit yields 0. -/
def convert_to_mb (s : String) : Int :=
  match s.toList.getLast? with
  | none => 0
  | some u =>
    match parseFloat (String.mk s.toList.dropLast) with
    | none => 0
    | some size =>
      let unit := u.toUpper
      if unit = 'G' then pyTrunc (size.num * 1024) (10 ^ size.scale)
      else if unit = 'M' then pyTrunc size.num (10 ^ size.scale)
      else if unit = 'K' then pyTrunc size.num (10 ^ size.scale * 1024)
      else 0

/-- `MTKSafetySystem._calculate_required_space`.  The source computes
`int(total_required * 1.2)` in floating point; for the value reached here
(`total_required = 2100`) the double product `2100 * 1.2` rounds to
exactly `2520.0`, so the exact computation `total * 12 / 10` agrees with
the source on this input. -/
def calculate_required_space : Nat :=
  let base_space := 500
  let partition_space := critical_partitions.length * 100
  let extra_space := if critical_partitions.contains "userdata" then 1000 else 0
  let total_required := base_space + partition_space + extra_space
  total_required * 12 / 10

/-! ### Backup / restore engine (`MTKSafetySystem`)

The environment `BEnv` answers the per-partition subprocess calls of
`_backup_partition` and `_restore_partition` (exit status and captured
stderr of the `dd` dump, `pull`, `push` and `dd` write steps) and
supplies the timestamp used by `_get_backup_path`.  The filesystem is the
record `FS`: `pathOk` answers `os.path.exists`, and `manifest` is the
partition list obtained by `json.load` on `backup_info.json` under a
backup path (`none` models an unreadable file or a missing
`partitions` key, both of which raise in the source). -/

structure BEnv where
  dumpOk : String → Bool
  dumpErr : String → String
  pullOk : String → Bool
  pullErr : String → String
  pushOk : String → Bool
  pushErr : String → String
  writeOk : String → Bool
  writeErr : String → String
  timestamp : String

structure FS where
  pathOk : String → Bool
  manifest : String → Option (List String)

/-- `MTKSafetySystem._get_backup_path`. -/
def get_backup_path (env : BEnv) (d : DeviceInfo) : String :=
  joinPath backup_root ((d.model.getD "unknown") ++ "_" ++ env.timestamp)

/-- `MTKSafetySystem._backup_partition`: `dd` the partition to the
device-side temp file, `pull` it, `rm` the temp file (only reached when
both succeeded; its result is not checked). -/
def backup_partition (env : BEnv) (p bp : String) : PartResult × List Cmd :=
  let output_file := joinPath bp (p ++ ".img")
  if !(env.dumpOk p) then
    ({ success := false, error := some (env.dumpErr p) }, [.ddDump p])
  else if !(env.pullOk p) then
    ({ success := false, error := some (env.pullErr p) }, [.ddDump p, .pull p])
  else
    ({ success := true, path := some output_file }, [.ddDump p, .pull p, .rmTemp])

/-- The dump-or-pull step for partition `p` succeeds. -/
def stepOk (env : BEnv) (p : String) : Bool :=
  env.dumpOk p && env.pullOk p

/-- The partition-result entry `_backup_partition` records on success. -/
def okRes (bp p : String) : PartResult :=
  { success := true, path := some (joinPath bp (p ++ ".img")) }

/-- The commands a successful `_backup_partition` issues. -/
def okTrace (p : String) : List Cmd := [.ddDump p, .pull p, .rmTemp]

/-- The partition-result entry `_backup_partition` records when the
dump-or-pull step fails. -/
def failRes (env : BEnv) (p : String) : PartResult :=
  if env.dumpOk p then { success := false, error := some (env.pullErr p) }
  else { success := false, error := some (env.dumpErr p) }

/-- The commands a failing `_backup_partition` issues. -/
def failTrace (env : BEnv) (p : String) : List Cmd :=
  if env.dumpOk p then [.ddDump p, .pull p] else [.ddDump p]

/-- The partition loop of `create_backup`: accumulated per-partition
results in order, the first failing entry if any (at which the loop
stops), and the issued commands. -/
def backup_loop (env : BEnv) (bp : String) :
    List String → List (String × PartResult) × Option (String × PartResult) × List Cmd
  | [] => ([], none, [])
  | p :: rest =>
    match backup_partition env p bp with
    | (r, tr) =>
      if r.success then
        match backup_loop env bp rest with
        | (acc, f, tr2) => ((p, r) :: acc, f, tr ++ tr2)
      else ([(p, r)], some (p, r), tr)

/-- Observable outcome of `MTKSafetySystem.create_backup`: the returned
dict, the device commands issued, the per-partition results accumulated
by the loop, whether `verification.json` was written, and the `verified`
flag it was written with. -/
structure BackupOutcome where
  result : RDict
  cmds : List Cmd
  partResults : List (String × PartResult)
  verificationWritten : Bool
  verifiedFlag : Option Bool
deriving Repr

/-- `MTKSafetySystem.create_backup`.  `backup_info.json` is written before
the loop; the loop is fail-fast; `_create_verification_file` runs only
when every partition succeeded, with `verified = all(r["success"])`. -/
def create_backup (env : BEnv) (d : DeviceInfo) : BackupOutcome :=
  match backup_loop env (get_backup_path env d) critical_partitions with
  | (acc, some (p, r), tr) =>
    { result := { status := some "error",
                  message := some ("Backup failed for " ++ p),
                  details := some r },
      cmds := tr
      partResults := acc
      verificationWritten := false
      verifiedFlag := none }
  | (acc, none, tr) =>
    { result := { status := some "success",
                  backup_path := some (get_backup_path env d),
                  results := some acc },
      cmds := tr
      partResults := acc
      verificationWritten := true
      verifiedFlag := some (acc.all fun e => e.2.success) }

/-- `MTKSafetySystem._verify_backup_integrity`: `backup_info.json`
present, `verification.json` present, and every partition named in the
manifest has its image file; a `json.load` failure lands in the `except`
branch and yields `False`. -/
def verify_backup_integrity (fs : FS) (bp : String) : Bool :=
  if !(fs.pathOk (joinPath bp "backup_info.json")) then false
  else if !(fs.pathOk (joinPath bp "verification.json")) then false
  else
    match fs.manifest bp with
    | none => false
    | some parts => parts.all fun p => fs.pathOk (joinPath bp (p ++ ".img"))

/-- `MTKSafetySystem._restore_partition`: missing image file fails before
any command; then `push` (checked), `dd` onto the partition, `rm` of the
temp file (issued before the `dd` exit status is checked). -/
def restore_partition (env : BEnv) (fs : FS) (p bp : String) : PartResult × List Cmd :=
  let input_file := joinPath bp (p ++ ".img")
  if !(fs.pathOk input_file) then
    ({ success := false, error := some ("Backup file not found: " ++ input_file) }, [])
  else if !(env.pushOk p) then
    ({ success := false, error := some (env.pushErr p) }, [.push p])
  else if !(env.writeOk p) then
    ({ success := false, error := some (env.writeErr p) }, [.push p, .ddWrite p, .rmTemp])
  else
    ({ success := true }, [.push p, .ddWrite p, .rmTemp])

/-- The push-then-write step for partition `p` succeeds. -/
def rStepOk (env : BEnv) (p : String) : Bool :=
  env.pushOk p && env.writeOk p

/-- The commands a successful `_restore_partition` issues. -/
def rOkTrace (p : String) : List Cmd := [.push p, .ddWrite p, .rmTemp]

/-- The result entry `_restore_partition` records when the image file is
missing. -/
def nfRes (bp p : String) : PartResult :=
  { success := false, error := some ("Backup file not found: " ++ joinPath bp (p ++ ".img")) }

/-- The partition loop of `restore_backup`, fail-fast like the backup
loop. -/
def restore_loop (env : BEnv) (fs : FS) (bp : String) :
    List String → List (String × PartResult) × Option (String × PartResult) × List Cmd
  | [] => ([], none, [])
  | p :: rest =>
    match restore_partition env fs p bp with
    | (r, tr) =>
      if r.success then
        match restore_loop env fs bp rest with
        | (acc, f, tr2) => ((p, r) :: acc, f, tr ++ tr2)
      else ([(p, r)], some (p, r), tr)

/-- `MTKSafetySystem.restore_backup`: integrity check first, then the
fail-fast restore loop over the fixed critical set.  The embedded
environment never raises, so the source's outermost `except` branch is
unreachable here. -/
def restore_backup (env : BEnv) (fs : FS) (bp : String) (_d : DeviceInfo) :
    RDict × List Cmd :=
  if !(verify_backup_integrity fs bp) then
    ({ status := some "error", message := some "Backup integrity check failed" }, [])
  else
    match restore_loop env fs bp critical_partitions with
    | (_, some (p, r), tr) =>
      ({ status := some "error",
         message := some ("Restore failed for " ++ p),
         details := some r }, tr)
    | (acc, none, tr) =>
      ({ status := some "success",
         message := some "Backup restored successfully",
         results := some acc }, tr)

/-- Number of successful per-partition entries a `details` value holds: a
single partition-result dict holds one entry, successful or not. -/
def PartResult.successEntries (r : PartResult) : Nat :=
  if r.success then 1 else 0

/-! ### Safety gate (`MTKSafetySystem.check_safety`)

The five checks are subprocess-bound probes; each is modelled as an
environment oracle delivering either that stage's structured result dict
or a raised exception (the source dispatches to them dynamically through
`getattr`, inside one `try` block whose `except` produces the
`_handle_safety_error` dict). -/

/-- The five checks of `check_safety`, in source order: the three
`pre_operation` checks, then `_check_critical_partitions`, then
`_check_backup_availability`. -/
inductive Stage where
  | battery
  | connection
  | deviceState
  | partitions
  | storage
deriving DecidableEq, Repr

/-- The fixed evaluation order of the gate. -/
def stageOrder : List Stage :=
  [.battery, .connection, .deviceState, .partitions, .storage]

/-- `MTKSafetySystem._handle_safety_error`. -/
def handle_safety_error (e : String) : RDict :=
  { safe := some false, message := some "Safety check failed", error := some e }

/-- The gate's loop: run stages in order, return the first result whose
`safe` is false verbatim; an exception anywhere (including a stage result
dict without a `safe` key, a `KeyError` in the source) lands in the
handler.  The second component records which stages were evaluated. -/
def runStages (env : Stage → Except String RDict) : List Stage → RDict × List Stage
  | [] => ({ safe := some true, message := some "All safety checks passed" }, [])
  | s :: rest =>
    match env s with
    | .error e => (handle_safety_error e, [s])
    | .ok r =>
      match r.safe with
      | none => (handle_safety_error "safe", [s])
      | some false => (r, [s])
      | some true =>
        match runStages env rest with
        | (res, tr) => (res, s :: tr)

/-- `MTKSafetySystem.check_safety`. -/
def check_safety (env : Stage → Except String RDict) : RDict × List Stage :=
  runStages env stageOrder

/-- A stage ran without exception and reported `safe = true`. -/
def stagePassed (env : Stage → Except String RDict) (s : Stage) : Bool :=
  match env s with
  | .ok r => r.safe == some true
  | .error _ => false

/-! ### Device manager (`MTKDeviceManager`) -/

/-- `leadsWith n h`: the characters `n` occur at the start of `h`. -/
def leadsWith : List Char → List Char → Bool
  | [], _ => true
  | _ :: _, [] => false
  | a :: t, b :: u => a == b && leadsWith t u

/-- `hasSub n h`: the characters `n` occur contiguously inside `h`. -/
def hasSub (n : List Char) : List Char → Bool
  | [] => n == []
  | c :: t => leadsWith n (c :: t) || hasSub n t

/-- Python's `in` operator on strings. -/
def pyIn (needle hay : String) : Bool :=
  hasSub needle.toList hay.toList

/-- `MTKDeviceManager.supported_chipsets`. -/
def supported_chipsets : List String :=
  ["MT6789", "MT6833", "MT6853", "MT6873", "MT6885", "MT6889", "MT6893", "MT6895"]

/-- `MTKDeviceManager.meta_commands`. -/
def meta_commands : List (String × List String) :=
  [("MT6789", ["adb reboot meta", "meta_mode --force"]),
   ("MT6833", ["adb reboot meta", "meta_mode --force"]),
   ("MT6853", ["adb reboot meta", "meta_mode --force"]),
   ("MT6873", ["adb reboot meta", "meta_mode --force"]),
   ("MT6885", ["adb reboot meta", "meta_mode --force"]),
   ("MT6889", ["adb reboot meta", "meta_mode --force"]),
   ("MT6893", ["adb reboot meta", "meta_mode --force"]),
   ("MT6895", ["adb reboot meta", "meta_mode --force"])]

/-- `MTKDeviceManager.frp_commands`. -/
def frp_commands : List (String × List String) :=
  [("MT6789", ["fastboot erase frp", "fastboot erase config", "fastboot reboot"]),
   ("MT6833", ["fastboot erase frp", "fastboot erase persist", "fastboot reboot"]),
   ("MT6853", ["fastboot erase frp", "fastboot erase config", "fastboot erase persist",
               "fastboot reboot"]),
   ("MT6873", ["fastboot erase frp", "fastboot erase config", "fastboot erase persist",
               "fastboot reboot"]),
   ("MT6885", ["fastboot erase frp", "fastboot erase config", "fastboot erase persist",
               "fastboot reboot"]),
   ("MT6889", ["fastboot erase frp", "fastboot erase config", "fastboot erase persist",
               "fastboot reboot"]),
   ("MT6893", ["fastboot erase frp", "fastboot erase config", "fastboot erase persist",
               "fastboot reboot"]),
   ("MT6895", ["fastboot erase frp", "fastboot erase config", "fastboot erase persist",
               "fastboot reboot"])]

/-- Environment of the device manager: the raw stdout of the first and
second `adb get-state` probe, the outcome of each
`_execute_command` invocation, and the raw stdout of the battery read. -/
structure DMEnv where
  stateOut0 : String
  stateOut1 : String
  execCmd : String → CmdResult
  batteryOut : String

/-- Python `str.strip()` on whitespace, over the character list. -/
def stripChars (l : List Char) : List Char :=
  ((l.dropWhile Char.isWhitespace).reverse.dropWhile Char.isWhitespace).reverse

/-- Python `str.strip()`. -/
def pyStrip (s : String) : String := String.mk (stripChars s.toList)

/-- `MTKDeviceManager._get_device_state`: `state_map.get(stdout.strip(),
UNKNOWN)` with the source's four-entry token table (note: no token maps
to `META`). -/
def get_device_state (out : String) : DeviceState :=
  if pyStrip out == "device" then .NORMAL
  else if pyStrip out == "recovery" then .RECOVERY
  else if pyStrip out == "fastboot" then .FASTBOOT
  else if pyStrip out == "sideload" then .UNKNOWN
  else .UNKNOWN

/-- Python `int()` on a stripped decimal string; `none` models the
`ValueError` path. -/
def parseIntPy (s : String) : Option Int :=
  match (pyStrip s).toList with
  | '-' :: t =>
    if !t.isEmpty && t.all Char.isDigit then some (-(natOfDigits t : Int)) else none
  | '+' :: t =>
    if !t.isEmpty && t.all Char.isDigit then some ((natOfDigits t : Int)) else none
  | cs =>
    if !cs.isEmpty && cs.all Char.isDigit then some ((natOfDigits cs : Int)) else none

/-- `MTKDeviceManager._get_battery_level`: parsed battery stdout, 0 on
any failure. -/
def get_battery_level (env : DMEnv) : Int :=
  (parseIntPy env.batteryOut).getD 0

/-- The command loop shared by `handle_meta_mode` and `handle_frp`: run
commands in order through `_execute_command`, stopping at the first
failure, whose result dict is returned; the second component is the list
of commands actually issued. -/
def run_commands (env : DMEnv) : List String → Option CmdResult × List String
  | [] => (none, [])
  | c :: rest =>
    let r := env.execCmd c
    if r.success then
      match run_commands env rest with
      | (f, tr) => (f, c :: tr)
    else (some r, [c])

/-- The dict returned by `_execute_command`, as returned verbatim by the
command loops on failure. -/
def cmdResultToRDict (r : CmdResult) : RDict :=
  { success := some r.success, stdout := r.stdout, stderr := r.stderr,
    message := r.message }

/-- `MTKDeviceManager.handle_meta_mode`.  The state probes run through
`subprocess` directly, not through `_execute_command`, so they are not
part of the issued-command trace.  `if not chipset or chipset not in
self.meta_commands` is the empty-string / missing-key check. -/
def handle_meta_mode (env : DMEnv) (d : DeviceInfo) : RDict × List String :=
  if get_device_state env.stateOut0 = DeviceState.META then
    ({ status := some "success", message := some "Device already in Meta mode" }, [])
  else
    match d.chipset with
    | none =>
      ({ status := some "error", message := some "Unsupported chipset for Meta mode" }, [])
    | some c =>
      if c == "" then
        ({ status := some "error", message := some "Unsupported chipset for Meta mode" }, [])
      else
        match meta_commands.lookup c with
        | none =>
          ({ status := some "error", message := some "Unsupported chipset for Meta mode" }, [])
        | some cmds =>
          match run_commands env cmds with
          | (some fail, tr) => (cmdResultToRDict fail, tr)
          | (none, tr) =>
            if get_device_state env.stateOut1 ≠ DeviceState.META then
              ({ status := some "error", message := some "Failed to enter Meta mode" }, tr)
            else
              ({ status := some "success",
                 message := some "Successfully entered Meta mode",
                 device_state := some "meta" }, tr)

/-- `MTKDeviceManager._verify_frp_safety`: state must read Fastboot and
battery must be at least 20. -/
def verify_frp_safety (env : DMEnv) : Bool :=
  if get_device_state env.stateOut0 ≠ DeviceState.FASTBOOT then false
  else if get_battery_level env < 20 then false
  else true

/-- `MTKDeviceManager._verify_frp_removal`: re-query the FRP variable and
look for "empty" in the lowered stdout (`dict.get("stdout", "")`). -/
def verify_frp_removal (env : DMEnv) : Bool :=
  let r := env.execCmd "fastboot getvar frp"
  pyIn "empty" (r.stdout.getD "").toLower

/-- `MTKDeviceManager.handle_frp`.  The final `fastboot getvar frp` of
the removal verification also goes through `_execute_command` and is part
of the issued-command trace. -/
def handle_frp (env : DMEnv) (d : DeviceInfo) : RDict × List String :=
  if !(verify_frp_safety env) then
    ({ status := some "error", message := some "FRP operation safety check failed" }, [])
  else
    match d.chipset with
    | none =>
      ({ status := some "error", message := some "Unsupported chipset for FRP removal" }, [])
    | some c =>
      if c == "" then
        ({ status := some "error", message := some "Unsupported chipset for FRP removal" }, [])
      else
        match frp_commands.lookup c with
        | none =>
          ({ status := some "error", message := some "Unsupported chipset for FRP removal" }, [])
        | some cmds =>
          match run_commands env cmds with
          | (some fail, tr) => (cmdResultToRDict fail, tr)
          | (none, tr) =>
            if !(verify_frp_removal env) then
              ({ status := some "error", message := some "FRP removal verification failed" },
               tr ++ ["fastboot getvar frp"])
            else
              ({ status := some "success", message := some "FRP removed successfully" },
               tr ++ ["fastboot getvar frp"])

/-! ### Orchestrator (`MTKTool`) -/

/-- Environment of `MTKTool.verify_device`'s connection probe: whether
`adb` is on the search path, whether `adb devices` exited 0, and its
stdout.  The timeout and exception branches of `_verify_connection`
produce the same not-connected shape with a different message and are
subsumed by `devicesOk = false` for the claims below. -/
structure ConnEnv where
  adbFound : Bool
  devicesOk : Bool
  devicesOut : String

/-- `MTKDeviceManager._verify_chipset` applied to `device_info.get("chipset")`. -/
def verify_chipset (c : Option String) : Bool :=
  match c with
  | some s => supported_chipsets.contains s
  | none => false

/-- `MTKDeviceManager._verify_connection`.  A `None` serial makes the
`in` test raise a `TypeError`, caught into the not-connected shape. -/
def verify_connection (env : ConnEnv) (d : DeviceInfo) : RDict :=
  if !env.adbFound then
    { connected := some false, error := some "ADB not found." }
  else if !env.devicesOk then
    { connected := some false, error := some "ADB devices command failed." }
  else
    match d.serial with
    | none =>
      { connected := some false, error := some "argument of type NoneType is not iterable" }
    | some s =>
      if pyIn s env.devicesOut then { connected := some true }
      else { connected := some false, error := some "Device serial not found." }

/-- `MTKDeviceManager.verify_device` (the assignment to
`current_device` is state the claims do not observe). -/
def verify_device (env : ConnEnv) (d : DeviceInfo) : RDict :=
  if !(verify_chipset d.chipset) then
    { verified := some false, message := some "Unsupported chipset", detailsStr := d.chipset }
  else
    match (verify_connection env d).connected with
    | some true =>
      { verified := some true, message := some "Device verified successfully",
        device_info := some d }
    | _ =>
      { verified := some false, message := some "Device connection failed",
        detailsStr := (verify_connection env d).error }

/-- The `str()` of the `TypeError` raised when the dispatch table calls
the two-argument `restore_backup` with only `device_info` (quote marks of
the Python message omitted). -/
def restoreArityMsg : String :=
  "MTKSafetySystem.restore_backup() missing 1 required positional argument: device_info"

/-- Combined environment of `MTKTool.start_operation`: gate stages,
connection probe, device manager, backup engine, and the result of
`_check_recovery_possible` used by the error handler. -/
structure ToolEnv where
  stages : Stage → Except String RDict
  conn : ConnEnv
  dm : DMEnv
  be : BEnv
  recovery : Bool

/-- `MTKSafetySystem.handle_error`. -/
def handle_error (env : ToolEnv) (e : String) : RDict :=
  { status := some "error", message := some e,
    recovery_possible := some env.recovery, safe_to_continue := some false }

/-- `MTKTool._execute_operation`.  The `restore` entry of the dispatch
table invokes the two-argument `restore_backup` with the single argument
`device_info`; the call itself raises a `TypeError` before any restore
code runs, embedded as the `Except.error` case with no commands
issued. -/
def execute_operation (env : ToolEnv) (op : String) (d : DeviceInfo) :
    Except String (RDict × List Cmd) :=
  if op == "meta_mode" then
    match handle_meta_mode env.dm d with
    | (r, tr) => .ok (r, tr.map Cmd.bridge)
  else if op == "frp_remove" then
    match handle_frp env.dm d with
    | (r, tr) => .ok (r, tr.map Cmd.bridge)
  else if op == "backup" then
    .ok ((create_backup env.be d).result, (create_backup env.be d).cmds)
  else if op == "restore" then
    .error restoreArityMsg
  else
    .ok ({ status := some "error", message := some "Unsupported operation" }, [])

/-- `MTKTool.start_operation`: gate first, then device verification, then
dispatch; any exception escaping the `try` block is converted by
`handle_error`.  The report collaborator only records; it is modelled as
a no-op.  The middle component is the list of gate stages evaluated, the
last the device commands issued by the dispatched operation. -/
def start_operation (env : ToolEnv) (op : String) (d : DeviceInfo) :
    RDict × List Stage × List Cmd :=
  match check_safety env.stages with
  | (sr, strace) =>
    match sr.safe with
    | some true =>
      match (verify_device env.conn d).verified with
      | some true =>
        match execute_operation env op d with
        | .error e => (handle_error env e, strace, [])
        | .ok (r, cmds) => (r, strace, cmds)
      | some false => (verify_device env.conn d, strace, [])
      | none => (handle_error env "verified", strace, [])
    | some false => (sr, strace, [])
    | none => (handle_error env "safe", strace, [])

/-! ### Concrete instances used by counterexamples and witnesses -/

/-- Backup environment in which partition 3 of 6 (`persist`) fails its
`dd` dump step and every other step succeeds. -/
def envC2 : BEnv :=
  { dumpOk := fun p => !(p == "persist")
    dumpErr := fun _ => "dd: I/O error"
    pullOk := fun _ => true
    pullErr := fun _ => ""
    pushOk := fun _ => true
    pushErr := fun _ => ""
    writeOk := fun _ => true
    writeErr := fun _ => ""
    timestamp := "20240101_000000" }

/-- A benign backup environment: every device step succeeds. -/
def envAllOk : BEnv :=
  { dumpOk := fun _ => true
    dumpErr := fun _ => ""
    pullOk := fun _ => true
    pullErr := fun _ => ""
    pushOk := fun _ => true
    pushErr := fun _ => ""
    writeOk := fun _ => true
    writeErr := fun _ => ""
    timestamp := "20240101_000000" }

/-- A sample `device_info`. -/
def devSample : DeviceInfo :=
  { chipset := some "MT6789", serial := some "SER123", model := some "TestDevice",
    expected_state := none }

/-- Filesystem of a backup directory at path `"B"` that has
`backup_info.json` but lacks `verification.json`. -/
def fsNoVerification : FS :=
  { pathOk := fun q => q == "B/backup_info.json"
    manifest := fun q => if q == "B" then some critical_partitions else none }

/-- Filesystem of a backup directory at path `"B"` whose manifest lists
only `nvram` and `boot`, with exactly those two images present together
with both metadata files. -/
def fsSubset : FS :=
  { pathOk := fun q =>
      q == "B/backup_info.json" || q == "B/verification.json" ||
      q == "B/nvram.img" || q == "B/boot.img"
    manifest := fun q => if q == "B" then some ["nvram", "boot"] else none }

/-- Gate environment in which every stage passes. -/
def stagesAllPass : Stage → Except String RDict :=
  fun _ => .ok { safe := some true }

/-- The battery-failure dict of `_check_battery` at 5%. -/
def batteryLowDict : RDict :=
  { safe := some false, message := some "Battery level too low",
    required := some "20%", current := some "5%" }

/-- Gate environment in which the battery check fails and every other
stage would pass. -/
def stagesBatteryLow : Stage → Except String RDict := fun s =>
  match s with
  | .battery => .ok batteryLowDict
  | _ => .ok { safe := some true }

/-- A connection environment in which `devSample` verifies. -/
def connOkEnv : ConnEnv :=
  { adbFound := true, devicesOk := true, devicesOut := "SER123\tdevice" }

/-- Device-manager environment of a device whose state query returns the
token `meta` and whose commands all succeed. -/
def dmMetaEnv : DMEnv :=
  { stateOut0 := "meta", stateOut1 := "meta",
    execCmd := fun _ => { success := true, stdout := some "" },
    batteryOut := "100" }

/-- Device-manager environment of a fastboot device at 85% battery whose
commands all succeed and whose FRP variable reads empty afterwards. -/
def dmFrpEnv : DMEnv :=
  { stateOut0 := "fastboot", stateOut1 := "fastboot",
    execCmd := fun c =>
      if c == "fastboot getvar frp" then { success := true, stdout := some "frp: empty" }
      else { success := true, stdout := some "" },
    batteryOut := "85" }

/-- Device-manager environment of a normally booted device (state token
`device`). -/
def dmNormalEnv : DMEnv :=
  { stateOut0 := "device", stateOut1 := "device",
    execCmd := fun _ => { success := true, stdout := some "" },
    batteryOut := "85" }

/-- Orchestrator environment in which the gate and the device check
pass. -/
def toolOkEnv : ToolEnv :=
  { stages := stagesAllPass, conn := connOkEnv, dm := dmMetaEnv, be := envAllOk,
    recovery := true }

/-- Orchestrator environment whose battery stage fails. -/
def toolBatteryLowEnv : ToolEnv :=
  { stages := stagesBatteryLow, conn := connOkEnv, dm := dmMetaEnv, be := envAllOk,
    recovery := true }

/-!  Theorems for claims C9 and C10.  -/

/-- Claim C9: for the fixed critical-partition set of 6 partitions
including `userdata`, `_calculate_required_space` returns exactly 2520 MB,
that is `(500 base + 100 per partition x 6 + 1000 for userdata) x 1.2`
truncated to an integer. -/
theorem c9_required_space :
    critical_partitions.length = 6 ∧
    "userdata" ∈ critical_partitions ∧
    calculate_required_space = 2520 ∧
    calculate_required_space = (500 + 100 * 6 + 1000) * 12 / 10 := by
  decide

/-- Claim C10: `_convert_to_mb` is total by construction and maps
`"1.5G"` to 1536 and `"800M"` to 800; the suffixes `G`/`M`/`K` are read
case-insensitively and scale by x1024, x1 and 1/1024 respectively
(witnessed on lower-case inputs and a `K` input); any input whose numeric
part does not parse (such as `"bogus"`) yields 0, and any recognized
numeric part with an unrecognized suffix yields 0. -/
theorem c10_convert_to_mb :
    convert_to_mb "1.5G" = 1536 ∧
    convert_to_mb "800M" = 800 ∧
    convert_to_mb "bogus" = 0 ∧
    convert_to_mb "1.5g" = 1536 ∧
    convert_to_mb "800m" = 800 ∧
    convert_to_mb "2048K" = 2 ∧
    convert_to_mb "2048k" = 2 ∧
    (∀ s, parseFloat (String.mk s.toList.dropLast) = none → convert_to_mb s = 0) ∧
    (∀ s u, s.toList.getLast? = some u →
      u.toUpper ≠ 'G' → u.toUpper ≠ 'M' → u.toUpper ≠ 'K' →
      convert_to_mb s = 0) := by
  refine ⟨by decide, by decide, by decide, by decide, by decide, by decide, by decide, ?_, ?_⟩
  · intro s hparse
    unfold convert_to_mb
    cases hlast : s.toList.getLast? with
    | none => rfl
    | some u => rw [hparse]
  · intro s u hlast hG hM hK
    unfold convert_to_mb
    rw [hlast]
    cases hparse : parseFloat (String.mk s.toList.dropLast) with
    | none => rfl
    | some size =>
      simp only [if_neg hG, if_neg hM, if_neg hK]

/-- Witness for C10: the unrecognized-suffix clause applied at the
concrete input `"12Q"`. -/
theorem c10_convert_to_mb_witness : convert_to_mb "12Q" = 0 :=
  c10_convert_to_mb.2.2.2.2.2.2.2.2 "12Q" 'Q' (by decide) (by decide) (by decide)
    (by decide)

/-!  Helper lemmas about the backup and restore loops.  -/

theorem crit_nodup : critical_partitions.Nodup := by decide

theorem failRes_success (env : BEnv) (p : String) : (failRes env p).success = false := by
  unfold failRes; split <;> rfl

theorem backup_partition_ok (env : BEnv) (bp p : String) (h : stepOk env p = true) :
    backup_partition env p bp = (okRes bp p, okTrace p) := by
  simp only [stepOk, Bool.and_eq_true] at h
  simp [backup_partition, okRes, okTrace, h.1, h.2]

theorem backup_partition_fail (env : BEnv) (bp p : String) (h : stepOk env p = false) :
    backup_partition env p bp = (failRes env p, failTrace env p) := by
  simp only [stepOk, Bool.and_eq_true] at h
  cases hd : env.dumpOk p <;> cases hp : env.pullOk p <;>
    simp_all [backup_partition, failRes, failTrace]

theorem backup_loop_ok (env : BEnv) (bp : String) :
    ∀ l : List String, (∀ p ∈ l, stepOk env p = true) →
      backup_loop env bp l = (l.map fun p => (p, okRes bp p), none, l.flatMap okTrace)
  | [], _ => by simp [backup_loop]
  | p :: rest, h => by
    have hp := h p (by simp)
    have ih := backup_loop_ok env bp rest (fun q hq => h q (by simp [hq]))
    simp [backup_loop, backup_partition_ok env bp p hp, okRes, ih]

theorem backup_loop_first_fail (env : BEnv) (bp : String) (p : String) (l₂ : List String) :
    ∀ l₁ : List String, (∀ q ∈ l₁, stepOk env q = true) → stepOk env p = false →
      backup_loop env bp (l₁ ++ p :: l₂) =
        ((l₁.map fun q => (q, okRes bp q)) ++ [(p, failRes env p)],
         some (p, failRes env p),
         l₁.flatMap okTrace ++ failTrace env p)
  | [], _, hp => by
    simp [backup_loop, backup_partition_fail env bp p hp, failRes_success]
  | q :: rest, h, hp => by
    have hq := h q (by simp)
    have ih := backup_loop_first_fail env bp p l₂ rest (fun x hx => h x (by simp [hx])) hp
    simp [backup_loop, backup_partition_ok env bp q hq, okRes, ih]

theorem backup_loop_none_iff (env : BEnv) (bp : String) :
    ∀ l : List String, (backup_loop env bp l).2.1 = none ↔ ∀ p ∈ l, stepOk env p = true
  | [] => by simp [backup_loop]
  | p :: rest => by
    cases hs : stepOk env p with
    | false =>
      simp [backup_loop, backup_partition_fail env bp p hs, failRes_success, hs]
    | true =>
      have ih := backup_loop_none_iff env bp rest
      rcases hrec : backup_loop env bp rest with ⟨acc, f, tr2⟩
      rw [hrec] at ih
      simp only [backup_loop, backup_partition_ok env bp p hs, okRes, hrec]
      simp only [List.mem_cons]
      constructor
      · rintro hf q (rfl | hq)
        · exact hs
        · exact ih.mp hf q hq
      · intro h
        exact ih.mpr fun q hq => h q (Or.inr hq)

theorem create_backup_fail (env : BEnv) (d : DeviceInfo) (l₁ : List String) (p : String)
    (l₂ : List String) (hdec : critical_partitions = l₁ ++ p :: l₂)
    (h1 : ∀ q ∈ l₁, stepOk env q = true) (hp : stepOk env p = false) :
    create_backup env d =
      { result := { status := some "error",
                    message := some ("Backup failed for " ++ p),
                    details := some (failRes env p) },
        cmds := l₁.flatMap okTrace ++ failTrace env p,
        partResults :=
          (l₁.map fun q => (q, okRes (get_backup_path env d) q)) ++ [(p, failRes env p)],
        verificationWritten := false,
        verifiedFlag := none } := by
  unfold create_backup
  rw [hdec, backup_loop_first_fail env (get_backup_path env d) p l₂ l₁ h1 hp]

theorem create_backup_ok (env : BEnv) (d : DeviceInfo)
    (h : ∀ p ∈ critical_partitions, stepOk env p = true) :
    create_backup env d =
      { result := { status := some "success",
                    backup_path := some (get_backup_path env d),
                    results :=
                      some (critical_partitions.map fun q =>
                        (q, okRes (get_backup_path env d) q)) },
        cmds := critical_partitions.flatMap okTrace,
        partResults :=
          critical_partitions.map fun q => (q, okRes (get_backup_path env d) q),
        verificationWritten := true,
        verifiedFlag := some true } := by
  unfold create_backup
  rw [backup_loop_ok env (get_backup_path env d) critical_partitions h]
  have hall : ((critical_partitions.map fun q =>
      (q, okRes (get_backup_path env d) q)).all fun e => e.2.success) = true := by
    rw [List.all_eq_true]
    intro e he
    rw [List.mem_map] at he
    obtain ⟨q, _, rfl⟩ := he
    rfl
  simp [hall]

theorem restore_partition_ok (env : BEnv) (fs : FS) (bp p : String)
    (himg : fs.pathOk (joinPath bp (p ++ ".img")) = true) (h : rStepOk env p = true) :
    restore_partition env fs p bp = ({ success := true }, rOkTrace p) := by
  simp only [rStepOk, Bool.and_eq_true] at h
  simp [restore_partition, rOkTrace, himg, h.1, h.2]

theorem restore_partition_notfound (env : BEnv) (fs : FS) (bp p : String)
    (himg : fs.pathOk (joinPath bp (p ++ ".img")) = false) :
    restore_partition env fs p bp = (nfRes bp p, []) := by
  simp [restore_partition, nfRes, himg]

theorem restore_loop_notfound (env : BEnv) (fs : FS) (bp : String) (p : String)
    (l₂ : List String) :
    ∀ l₁ : List String,
      (∀ q ∈ l₁, fs.pathOk (joinPath bp (q ++ ".img")) = true ∧ rStepOk env q = true) →
      fs.pathOk (joinPath bp (p ++ ".img")) = false →
      restore_loop env fs bp (l₁ ++ p :: l₂) =
        ((l₁.map fun q => (q, ({ success := true } : PartResult))) ++ [(p, nfRes bp p)],
         some (p, nfRes bp p),
         l₁.flatMap rOkTrace)
  | [], _, hp => by
    simp [restore_loop, restore_partition_notfound env fs bp p hp, nfRes]
  | q :: rest, h, hp => by
    have hq := h q (by simp)
    have ih := restore_loop_notfound env fs bp p l₂ rest (fun x hx => h x (by simp [hx])) hp
    simp [restore_loop, restore_partition_ok env fs bp q hq.1 hq.2, ih]

/-!  Theorems for claims C1, C2 and C8.  -/

/-- Claim C1: whenever the backup directory lacks `backup_info.json`, or
lacks `verification.json`, or lacks the `{partition}.img` file of some
partition named in the manifest's partition list, `restore_backup`
returns the dict `{status: "error", message: "Backup integrity check
failed"}` and issues no device command. -/
theorem c1_integrity_gate (env : BEnv) (fs : FS) (bp : String) (d : DeviceInfo)
    (h : fs.pathOk (joinPath bp "backup_info.json") = false ∨
         fs.pathOk (joinPath bp "verification.json") = false ∨
         ∃ parts p, fs.manifest bp = some parts ∧ p ∈ parts ∧
           fs.pathOk (joinPath bp (p ++ ".img")) = false) :
    restore_backup env fs bp d =
      ({ status := some "error", message := some "Backup integrity check failed" }, []) := by
  have hv : verify_backup_integrity fs bp = false := by
    unfold verify_backup_integrity
    rcases h with h | h | ⟨parts, p, hman, hmem, himg⟩
    · simp [h]
    · cases hinfo : fs.pathOk (joinPath bp "backup_info.json") <;> simp [hinfo, h]
    · cases hinfo : fs.pathOk (joinPath bp "backup_info.json") <;>
        cases hverif : fs.pathOk (joinPath bp "verification.json") <;>
          simp [hinfo, hverif, hman]
      exact ⟨p, hmem, himg⟩
  simp [restore_backup, hv]

/-- Witness for C1: a backup directory missing `verification.json`. -/
theorem c1_integrity_gate_witness :
    restore_backup envAllOk fsNoVerification "B" devSample =
      ({ status := some "error", message := some "Backup integrity check failed" }, []) :=
  c1_integrity_gate envAllOk fsNoVerification "B" devSample (Or.inr (Or.inl (by decide)))

/-- Counterexample for C2 as stated: with partition 3 of 6 (`persist`)
failing, the claim requires the returned `details` field to contain
exactly 2 successful entries, but the source stores only the single
failing partition's result dict there, which holds 0 successful
entries. -/
theorem c2_counterexample :
    ((create_backup envC2 devSample).result.details.map PartResult.successEntries) ≠
      some 2 := by
  decide

/-- Claim C2 (amended): when partition `k` of the fixed 6-partition
critical set is the first whose dump-or-pull step fails, `create_backup`
returns status `"error"`; its `details` field holds the failing
partition's single result dict (not the partial-results map); the
partial results accumulated by the loop hold exactly `k-1` successful
entries, 1 failure entry and no entries for partitions after `k`;
`verification.json` is not written and partitions after `k` are never
attempted.  `verification.json` is written exactly when all 6 partitions
succeed, and then its `verified` flag is the AND of the per-partition
successes. -/
theorem c2_backup_fail_fast (env : BEnv) (d : DeviceInfo) :
    (∀ k : Nat, 1 ≤ k → k ≤ 6 →
      (∀ q ∈ critical_partitions.take (k - 1), stepOk env q = true) →
      stepOk env (critical_partitions.getD (k - 1) "") = false →
      (create_backup env d).result.status = some "error" ∧
      (create_backup env d).result.details =
        some (failRes env (critical_partitions.getD (k - 1) "")) ∧
      (create_backup env d).partResults.map Prod.fst = critical_partitions.take k ∧
      ((create_backup env d).partResults.filter fun e => e.2.success).length = k - 1 ∧
      ((create_backup env d).partResults.filter fun e => !e.2.success).length = 1 ∧
      (create_backup env d).verificationWritten = false ∧
      (∀ p ∈ critical_partitions.drop k, Cmd.ddDump p ∉ (create_backup env d).cmds)) ∧
    ((create_backup env d).verificationWritten = true ↔
      ∀ p ∈ critical_partitions, stepOk env p = true) ∧
    ((∀ p ∈ critical_partitions, stepOk env p = true) →
      (create_backup env d).result.status = some "success" ∧
      (create_backup env d).verifiedFlag = some true ∧
      (create_backup env d).verifiedFlag =
        some ((create_backup env d).partResults.all fun e => e.2.success)) := by
  refine ⟨?_, ?_, ?_⟩
  · intro k hk1 hk6 hpre hfail
    have hlt : k - 1 < critical_partitions.length := by
      have h6 : critical_partitions.length = 6 := rfl
      omega
    have hk : k - 1 + 1 = k := by omega
    have hdec : critical_partitions =
        critical_partitions.take (k - 1) ++
          critical_partitions.getD (k - 1) "" :: critical_partitions.drop k := by
      rw [List.getD_eq_getElem _ _ hlt]
      conv_lhs => rw [← List.take_append_drop (k - 1) critical_partitions]
      congr 1
      rw [List.drop_eq_getElem_cons hlt, hk]
    have heq := create_backup_fail env d _ _ _ hdec hpre hfail
    rw [heq]
    refine ⟨rfl, rfl, ?_, ?_, ?_, rfl, ?_⟩
    · have hmapid : ∀ l : List String,
          (l.map fun q => (q, okRes (get_backup_path env d) q)).map Prod.fst = l := by
        intro l
        induction l with
        | nil => rfl
        | cons a t ih => simp only [List.map_cons, ih]
      rw [List.map_append, hmapid, List.map_cons, List.map_nil]
      rw [List.getD_eq_getElem _ _ hlt]
      rw [List.take_concat_get' critical_partitions (k - 1) hlt, hk]
    · rw [List.filter_append]
      have hok : ((critical_partitions.take (k - 1)).map
          (fun q => (q, okRes (get_backup_path env d) q))).filter
            (fun e => e.2.success) =
          (critical_partitions.take (k - 1)).map
            (fun q => (q, okRes (get_backup_path env d) q)) := by
        rw [List.filter_eq_self]
        intro a ha
        rw [List.mem_map] at ha
        obtain ⟨q, _, rfl⟩ := ha
        rfl
      rw [hok]
      simp [failRes_success, List.length_take, critical_partitions]
      omega
    · rw [List.filter_append]
      have hok : ((critical_partitions.take (k - 1)).map
          (fun q => (q, okRes (get_backup_path env d) q))).filter
            (fun e => !e.2.success) = [] := by
        rw [List.filter_eq_nil_iff]
        intro a ha
        rw [List.mem_map] at ha
        obtain ⟨q, _, rfl⟩ := ha
        simp [okRes]
      rw [hok]
      simp [failRes_success]
    · intro p hp hmem
      rw [List.mem_append] at hmem
      rcases hmem with hmem | hmem
      · rw [List.mem_flatMap] at hmem
        obtain ⟨q, hq, hin⟩ := hmem
        simp only [okTrace, List.mem_cons, List.not_mem_nil, or_false,
          List.mem_singleton] at hin
        rcases hin with hin | hin | hin
        · cases hin
          exact (List.disjoint_take_drop crit_nodup (by omega : k - 1 ≤ k)) hq hp
        · cases hin
        · cases hin
      · have hpk : p = critical_partitions.getD (k - 1) "" := by
          unfold failTrace at hmem
          split at hmem <;>
            simp only [List.mem_cons, List.not_mem_nil, or_false,
              List.mem_singleton] at hmem
          · rcases hmem with hmem | hmem
            · cases hmem; rfl
            · cases hmem
          · cases hmem; rfl
        have hmemtake : p ∈ critical_partitions.take k := by
          have h1 : critical_partitions.take (k - 1) ++ [critical_partitions[k - 1]] =
              critical_partitions.take k := by
            rw [List.take_concat_get' critical_partitions (k - 1) hlt, hk]
          rw [hpk, List.getD_eq_getElem _ _ hlt, ← h1]
          exact List.mem_append_right _ (by simp)
        exact (List.disjoint_take_drop crit_nodup (le_refl k)) hmemtake hp
  · rcases hloop : backup_loop env (get_backup_path env d) critical_partitions
      with ⟨acc, f, tr⟩
    have hiff := backup_loop_none_iff env (get_backup_path env d) critical_partitions
    rw [hloop] at hiff
    unfold create_backup
    rw [hloop]
    cases f with
    | none => simpa using hiff
    | some e =>
      rcases e with ⟨p, r⟩
      simp only []
      constructor
      · intro hfalse; cases hfalse
      · intro hall
        have : (some (p, r) : Option (String × PartResult)) = none := hiff.mpr hall
        cases this
  · intro hall
    rw [create_backup_ok env d hall]
    refine ⟨rfl, rfl, ?_⟩
    have : ((critical_partitions.map fun q =>
        (q, okRes (get_backup_path env d) q)).all fun e => e.2.success) = true := by
      rw [List.all_eq_true]
      intro e he
      rw [List.mem_map] at he
      obtain ⟨q, _, rfl⟩ := he
      rfl
    rw [this]

/-- Witness for C2 (amended), at the environment where partition 3
(`persist`) is the first failure. -/
theorem c2_backup_fail_fast_witness :
    (create_backup envC2 devSample).result.status = some "error" ∧
    (create_backup envC2 devSample).verificationWritten = false ∧
    ((create_backup envC2 devSample).partResults.filter
      fun e => e.2.success).length = 2 :=
  have h := (c2_backup_fail_fast envC2 devSample).1 3 (by decide) (by decide)
    (by decide) (by decide)
  ⟨h.1, h.2.2.2.2.2.1, h.2.2.2.1⟩

/-- Claim C8: integrity verification checks images only for
manifest-listed partitions while the restore loop walks the fixed
critical set, so a backup whose manifest lists a strict subset of the
critical set (with both metadata files and all listed images present)
passes verification, and the restore loop then fails with a "Backup file
not found" error at the first critical partition lacking an image, after
the earlier critical partitions have already been pushed to the
device. -/
theorem c8_integrity_blindspot (env : BEnv) (fs : FS) (bp : String) (d : DeviceInfo)
    (parts l₁ : List String) (p₀ : String) (l₂ : List String)
    (hinfo : fs.pathOk (joinPath bp "backup_info.json") = true)
    (hver : fs.pathOk (joinPath bp "verification.json") = true)
    (hman : fs.manifest bp = some parts)
    (hsub : ∀ q ∈ parts, q ∈ critical_partitions)
    (himg : ∀ q ∈ parts, fs.pathOk (joinPath bp (q ++ ".img")) = true)
    (hdec : critical_partitions = l₁ ++ p₀ :: l₂)
    (hfirst : ∀ q ∈ l₁, q ∈ parts)
    (hmiss : fs.pathOk (joinPath bp (p₀ ++ ".img")) = false)
    (hstep : ∀ q ∈ l₁, rStepOk env q = true) :
    verify_backup_integrity fs bp = true ∧
    (restore_backup env fs bp d).1 =
      { status := some "error",
        message := some ("Restore failed for " ++ p₀),
        details := some (nfRes bp p₀) } ∧
    (restore_backup env fs bp d).2 = l₁.flatMap rOkTrace ∧
    (∀ q ∈ l₁, Cmd.push q ∈ (restore_backup env fs bp d).2) := by
  have hv : verify_backup_integrity fs bp = true := by
    unfold verify_backup_integrity
    rw [hinfo, hver, hman]
    simp only [Bool.not_true, Bool.false_eq_true, if_false]
    rw [List.all_eq_true]
    intro q hq
    rw [himg q hq]
  have hloop := restore_loop_notfound env fs bp p₀ l₂ l₁
    (fun q hq => ⟨himg q (hfirst q hq), hstep q hq⟩) hmiss
  have heq : restore_backup env fs bp d =
      ({ status := some "error",
         message := some ("Restore failed for " ++ p₀),
         details := some (nfRes bp p₀) }, l₁.flatMap rOkTrace) := by
    unfold restore_backup
    rw [hv]
    simp only [Bool.not_true, Bool.false_eq_true, if_false]
    rw [hdec, hloop]
  rw [heq]
  refine ⟨hv, rfl, rfl, ?_⟩
  intro q hq
  rw [List.mem_flatMap]
  exact ⟨q, hq, by simp [rOkTrace]⟩

/-!  Helper lemmas about the gate, the orchestrator and the device
manager.  -/

theorem runStages_append_pass (env : Stage → Except String RDict) (l₂ : List Stage) :
    ∀ l₁ : List Stage, (∀ t ∈ l₁, stagePassed env t = true) →
      runStages env (l₁ ++ l₂) =
        ((runStages env l₂).1, l₁ ++ (runStages env l₂).2)
  | [], _ => by simp
  | t :: rest, h => by
    have ht := h t (by simp)
    unfold stagePassed at ht
    cases henv : env t with
    | error e => rw [henv] at ht; cases ht
    | ok r =>
      rw [henv] at ht
      have hsafe : r.safe = some true := by rwa [beq_iff_eq] at ht
      have ih := runStages_append_pass env l₂ rest (fun x hx => h x (by simp [hx]))
      simp [runStages, henv, hsafe, ih]

theorem battery_mem_check_safety (env : Stage → Except String RDict) :
    Stage.battery ∈ (check_safety env).2 := by
  unfold check_safety stageOrder runStages
  cases henv : env .battery with
  | error e => simp
  | ok r =>
    cases hsafe : r.safe with
    | none => simp [hsafe]
    | some b =>
      cases b with
      | false => simp [hsafe]
      | true =>
        rcases hrec : runStages env [.connection, .deviceState, .partitions, .storage]
          with ⟨res, tr⟩
        simp [hsafe, hrec]

theorem start_operation_strace (env : ToolEnv) (op : String) (d : DeviceInfo) :
    (start_operation env op d).2.1 = (check_safety env.stages).2 := by
  unfold start_operation
  rcases hcs : check_safety env.stages with ⟨sr, strace⟩
  cases hsafe : sr.safe with
  | none => simp [hsafe]
  | some b =>
    cases b with
    | false => simp [hsafe]
    | true =>
      cases hv : (verify_device env.conn d).verified with
      | none => simp [hsafe, hv]
      | some b2 =>
        cases b2 with
        | false => simp [hsafe, hv]
        | true =>
          cases he : execute_operation env op d with
          | error e => simp [hsafe, hv, he]
          | ok pr => rcases pr with ⟨r, cmds⟩; simp [hsafe, hv, he]

theorem execute_operation_restore (env : ToolEnv) (d : DeviceInfo) :
    execute_operation env "restore" d = .error restoreArityMsg := rfl

theorem execute_operation_unsupported (env : ToolEnv) (op : String) (d : DeviceInfo)
    (h1 : op ≠ "meta_mode") (h2 : op ≠ "frp_remove") (h3 : op ≠ "backup")
    (h4 : op ≠ "restore") :
    execute_operation env op d =
      .ok ({ status := some "error", message := some "Unsupported operation" }, []) := by
  simp [execute_operation, h1, h2, h3, h4]

theorem run_commands_all_ok (env : DMEnv) :
    ∀ cmds : List String, (∀ c ∈ cmds, (env.execCmd c).success = true) →
      run_commands env cmds = (none, cmds)
  | [], _ => rfl
  | c :: rest, h => by
    have hc := h c (by simp)
    have ih := run_commands_all_ok env rest (fun x hx => h x (by simp [hx]))
    simp [run_commands, hc, ih]

theorem verify_frp_safety_iff (env : DMEnv) :
    verify_frp_safety env = true ↔
      (get_device_state env.stateOut0 = DeviceState.FASTBOOT ∧
        20 ≤ get_battery_level env) := by
  unfold verify_frp_safety
  split_ifs with h1 h2
  · simp [h1]
  · simp only [Bool.false_eq_true, false_iff]
    rintro ⟨-, hB⟩
    omega
  · simp only [true_iff]
    exact ⟨not_not.mp h1, not_lt.mp h2⟩

/-!  Theorems for claims C3, C4, C5, C6 and C7.  -/

/-- Claim C3: the gate evaluates its checks in the fixed order battery,
connection, device-state, critical partitions, storage; the first failing
check's result is returned verbatim and no later check is evaluated (in
particular a failing battery check leaves the storage stage
unevaluated); an exception raised in any stage is converted to the
`{safe: false, message: "Safety check failed", error}` dict instead of
propagating. -/
theorem c3_gate_order (env : Stage → Except String RDict) :
    (∀ (l₁ : List Stage) (s : Stage) (l₂ : List Stage) (r : RDict),
      stageOrder = l₁ ++ s :: l₂ →
      (∀ t ∈ l₁, stagePassed env t = true) →
      env s = .ok r → r.safe = some false →
      check_safety env = (r, l₁ ++ [s])) ∧
    (∀ (l₁ : List Stage) (s : Stage) (l₂ : List Stage) (e : String),
      stageOrder = l₁ ++ s :: l₂ →
      (∀ t ∈ l₁, stagePassed env t = true) →
      env s = .error e →
      check_safety env = (handle_safety_error e, l₁ ++ [s])) ∧
    (∀ r : RDict, env .battery = .ok r → r.safe = some false →
      Stage.storage ∉ (check_safety env).2) := by
  have hA : ∀ (l₁ : List Stage) (s : Stage) (l₂ : List Stage) (r : RDict),
      stageOrder = l₁ ++ s :: l₂ →
      (∀ t ∈ l₁, stagePassed env t = true) →
      env s = .ok r → r.safe = some false →
      check_safety env = (r, l₁ ++ [s]) := by
    intro l₁ s l₂ r hdec hpass henv hsafe
    unfold check_safety
    rw [hdec, runStages_append_pass env (s :: l₂) l₁ hpass]
    simp [runStages, henv, hsafe]
  refine ⟨hA, ?_, ?_⟩
  · intro l₁ s l₂ e hdec hpass henv
    unfold check_safety
    rw [hdec, runStages_append_pass env (s :: l₂) l₁ hpass]
    simp [runStages, henv]
  · intro r henv hsafe
    have h := hA [] .battery [.connection, .deviceState, .partitions, .storage] r rfl
      (by simp) henv hsafe
    rw [h]
    simp

/-- Witness for C3: a gate whose battery stage fails at 5% returns that
result verbatim having evaluated only the battery stage. -/
theorem c3_gate_order_witness :
    check_safety stagesBatteryLow = (batteryLowDict, [Stage.battery]) :=
  (c3_gate_order stagesBatteryLow).1 []
    .battery [.connection, .deviceState, .partitions, .storage] batteryLowDict rfl
    (by simp) rfl rfl

/-- Claim C4: when the gate and the device verification pass,
`start_operation("restore", device_info)` never reaches the restore
partition loop: the dispatch table's unary call of the binary
`restore_backup` raises, and the caller returns the generic error
handler's dict `{status: "error", message, recovery_possible,
safe_to_continue: false}` with no push or dd command issued. -/
theorem c4_restore_dispatch_arity (env : ToolEnv) (d : DeviceInfo)
    (hs : (check_safety env.stages).1.safe = some true)
    (hv : (verify_device env.conn d).verified = some true) :
    start_operation env "restore" d =
      ({ status := some "error", message := some restoreArityMsg,
         recovery_possible := some env.recovery, safe_to_continue := some false },
       (check_safety env.stages).2, []) := by
  unfold start_operation
  rcases hcs : check_safety env.stages with ⟨sr, strace⟩
  rw [hcs] at hs
  simp only at hs
  simp only [hs, hv, execute_operation_restore env d]
  rfl

/-- Witness for C4: all checks pass and the restore dispatch still
produces the generic error dict with an empty command trace. -/
theorem c4_restore_dispatch_arity_witness :
    start_operation toolOkEnv "restore" devSample =
      ({ status := some "error", message := some restoreArityMsg,
         recovery_possible := some toolOkEnv.recovery, safe_to_continue := some false },
       (check_safety toolOkEnv.stages).2, []) :=
  c4_restore_dispatch_arity toolOkEnv devSample (by decide) (by decide)

/-- Counterexample for C5 as stated: with a failing battery stage and the
unsupported operation type `"flash_rom"`, `start_operation` returns the
battery-stage failure, not `{status: "error", message: "Unsupported
operation"}` — the gate runs before the dispatch looks at the operation
type. -/
theorem c5_counterexample :
    (start_operation toolBatteryLowEnv "flash_rom" devSample).1 ≠
      { status := some "error", message := some "Unsupported operation" } := by
  decide

/-- Claim C5 (amended): an unsupported operation type yields `{status:
"error", message: "Unsupported operation"}` only after the SafetyGate and
the device verification have passed; the gate is engaged first for every
operation type (the battery stage is always evaluated), and a failing
gate preempts the unsupported-operation error. -/
theorem c5_unsupported_after_gate (env : ToolEnv) (d : DeviceInfo) (op : String)
    (hop1 : op ≠ "meta_mode") (hop2 : op ≠ "frp_remove") (hop3 : op ≠ "backup")
    (hop4 : op ≠ "restore") :
    Stage.battery ∈ (start_operation env op d).2.1 ∧
    ((check_safety env.stages).1.safe = some true →
      (verify_device env.conn d).verified = some true →
      (start_operation env op d).1 =
        { status := some "error", message := some "Unsupported operation" }) := by
  constructor
  · rw [start_operation_strace env op d]
    exact battery_mem_check_safety env.stages
  · intro hs hv
    unfold start_operation
    rcases hcs : check_safety env.stages with ⟨sr, strace⟩
    rw [hcs] at hs
    simp only at hs
    simp only [hs, hv, execute_operation_unsupported env op d hop1 hop2 hop3 hop4]

/-- Witness for C5 (amended): the unsupported type `"flash_rom"` with all
checks passing. -/
theorem c5_unsupported_after_gate_witness :
    Stage.battery ∈ (start_operation toolOkEnv "flash_rom" devSample).2.1 ∧
    (start_operation toolOkEnv "flash_rom" devSample).1 =
      { status := some "error", message := some "Unsupported operation" } :=
  have h := c5_unsupported_after_gate toolOkEnv devSample "flash_rom"
    (by decide) (by decide) (by decide) (by decide)
  ⟨h.1, h.2 (by decide) (by decide)⟩

/-- Claim C6 (code bug): META-mode entry cannot be idempotent because
`_get_device_state`'s token table maps no token to `META`; the state can
never read Meta, so `handle_meta_mode` never returns a success dict and,
even on a device whose state query returns the token `meta`, it reissues
the full command sequence and then fails with "Failed to enter Meta
mode". -/
theorem c6_meta_detection_bug :
    (∀ s : String, get_device_state s ≠ DeviceState.META) ∧
    (∀ (env : DMEnv) (d : DeviceInfo),
      (handle_meta_mode env d).1.status ≠ some "success") ∧
    handle_meta_mode dmMetaEnv devSample =
      ({ status := some "error", message := some "Failed to enter Meta mode" },
       ["adb reboot meta", "meta_mode --force"]) := by
  have h1 : ∀ s : String, get_device_state s ≠ DeviceState.META := by
    intro s
    unfold get_device_state
    split_ifs <;> decide
  refine ⟨h1, ?_, by decide⟩
  intro env d
  unfold handle_meta_mode
  rw [if_neg (h1 env.stateOut0)]
  cases d.chipset with
  | none => simp
  | some c =>
    by_cases hceq : c = ""
    · simp [hceq]
    · have hc : (c == "") = false := by simp [hceq]
      simp only [hc, Bool.false_eq_true, if_false]
      cases hl : meta_commands.lookup c with
      | none => simp [hl]
      | some cmds =>
        rcases hr : run_commands env cmds with ⟨f, tr⟩
        cases f with
        | some fail => simp [hl, hr, cmdResultToRDict]
        | none =>
          simp only [hl, hr]
          rw [if_pos (h1 env.stateOut1)]
          simp

/-- Claim C7: `handle_frp` issues no command at all (in particular no
erase) unless the device state reads Fastboot and the battery level is at
least 20 at the pre-check; when the pre-check passes and the chipset's
command sequence succeeds, it re-queries the FRP variable and returns
success exactly when the response reports empty, otherwise the
FRP-verification-failed error. -/
theorem c7_frp_gate (env : DMEnv) (d : DeviceInfo) :
    (¬(get_device_state env.stateOut0 = DeviceState.FASTBOOT ∧
        20 ≤ get_battery_level env) →
      handle_frp env d =
        ({ status := some "error", message := some "FRP operation safety check failed" },
         [])) ∧
    (∀ (c : String) (cmds : List String),
      d.chipset = some c → frp_commands.lookup c = some cmds →
      get_device_state env.stateOut0 = DeviceState.FASTBOOT →
      20 ≤ get_battery_level env →
      (∀ cmd ∈ cmds, (env.execCmd cmd).success = true) →
      (handle_frp env d).2 = cmds ++ ["fastboot getvar frp"] ∧
      (handle_frp env d).1 =
        (if verify_frp_removal env then
          { status := some "success", message := some "FRP removed successfully" }
        else
          { status := some "error", message := some "FRP removal verification failed" })) := by
  constructor
  · intro hpre
    have hvs : verify_frp_safety env = false := by
      cases hv : verify_frp_safety env with
      | false => rfl
      | true => exact absurd ((verify_frp_safety_iff env).mp hv) hpre
    unfold handle_frp
    rw [hvs]
    rfl
  · intro c cmds hchip hlookup hstate hbat hall
    have hvs : verify_frp_safety env = true :=
      (verify_frp_safety_iff env).mpr ⟨hstate, hbat⟩
    have hc : (c == "") = false := by
      cases hceq : c == "" with
      | false => rfl
      | true =>
        exfalso
        have hceq2 : c = "" := by rwa [beq_iff_eq] at hceq
        rw [hceq2] at hlookup
        have hnone : frp_commands.lookup "" = none := by decide
        rw [hnone] at hlookup
        cases hlookup
    have heq : handle_frp env d =
        (if verify_frp_removal env then
          ({ status := some "success", message := some "FRP removed successfully" },
           cmds ++ ["fastboot getvar frp"])
        else
          ({ status := some "error", message := some "FRP removal verification failed" },
           cmds ++ ["fastboot getvar frp"])) := by
      unfold handle_frp
      rw [hvs, hchip]
      simp only [hc, Bool.false_eq_true, if_false]
      rw [hlookup]
      simp only []
      rw [run_commands_all_ok env cmds hall]
      cases hrem : verify_frp_removal env <;> simp [hrem]
    rw [heq]
    cases hrem : verify_frp_removal env <;> simp [hrem]

/-- Witness for C7: a fastboot device at 85% battery, the `MT6789`
command sequence succeeding and the FRP variable reading empty. -/
theorem c7_frp_gate_witness :
    (handle_frp dmFrpEnv devSample).2 =
      ["fastboot erase frp", "fastboot erase config", "fastboot reboot"] ++
        ["fastboot getvar frp"] ∧
    (handle_frp dmFrpEnv devSample).1 =
      (if verify_frp_removal dmFrpEnv then
        { status := some "success", message := some "FRP removed successfully" }
      else
        { status := some "error", message := some "FRP removal verification failed" }) :=
  (c7_frp_gate dmFrpEnv devSample).2 "MT6789"
    ["fastboot erase frp", "fastboot erase config", "fastboot reboot"]
    (by decide) (by decide) (by decide) (by decide) (by decide)

/-- Witness for C8: a backup at path `"B"` whose manifest lists only
`nvram` and `boot`; verification passes, the restore loop pushes those
two partitions and then fails on `persist` with a file-not-found
error. -/
theorem c8_integrity_blindspot_witness :
    verify_backup_integrity fsSubset "B" = true ∧
    (restore_backup envAllOk fsSubset "B" devSample).1 =
      { status := some "error",
        message := some ("Restore failed for " ++ "persist"),
        details := some (nfRes "B" "persist") } ∧
    (restore_backup envAllOk fsSubset "B" devSample).2 =
      ["nvram", "boot"].flatMap rOkTrace ∧
    (∀ q ∈ ["nvram", "boot"], Cmd.push q ∈ (restore_backup envAllOk fsSubset "B" devSample).2) :=
  c8_integrity_blindspot envAllOk fsSubset "B" devSample ["nvram", "boot"]
    ["nvram", "boot"] "persist" ["security", "userdata", "system"]
    (by decide) (by decide) (by decide) (by decide) (by decide) (by decide)
    (by decide) (by decide) (by decide)

end MTK
